import Mathlib

/-!
Verification of the ETF screener backend (`server_fixed.py`).

The development shallowly embeds the pure core of the program:
numeric coercion helpers (`safe_float`, `safe_bool`), the expense-ratio
resolver (`get_expense_ratio`), the indicator computations (SMA, RSI),
the asset-class keyword classifier, the liquidity score, the per-ticker
record builder (`get_etf_data`) and the batch loop (`get_etfs`).

Modelling conventions:
- Python floats are modelled as `ℚ` (exact arithmetic); `NaN` and absent
  values are modelled explicitly where the code distinguishes them.
- A Python exception escaping a piece of code is modelled by an
  `Option`-valued function returning `none`.
- `round(x, n)` (Python's round-half-to-even) is `pyRound`, `int(x)`
  (truncation toward zero) is `pyInt`.
-/

/-- A dynamically typed Python value, restricted to the shapes that can
reach `safe_float` (line 47): `None`, a float `NaN`, a float, an int, a
bool, a string, an arbitrary non-sequence object, and a list. -/
inductive PyVal where
  | vNone : PyVal
  | vNan : PyVal
  | vFloat (q : ℚ) : PyVal
  | vInt (n : ℤ) : PyVal
  | vBool (b : Bool) : PyVal
  | vStr (s : String) : PyVal
  | vObj : PyVal
  | vList (l : List PyVal) : PyVal

/-- Numeric value of a list of decimal digit characters. -/
def decToNat (cs : List Char) : ℕ :=
  cs.foldl (fun a c => a * 10 + (c.toNat - 48)) 0

/-- Python's `float(s)` on a plain decimal string literal: optional sign,
digits, optional fraction part.  (Scientific notation, `inf`/`nan` words
and surrounding whitespace are outside the modelled grammar.)  `none`
models a `ValueError`. -/
def parseDecCore (cs : List Char) : Option ℚ :=
  match cs.span Char.isDigit with
  | (ip, []) => if ip.isEmpty then none else some (decToNat ip)
  | (ip, c :: fp) =>
    if c == '.' && fp.all Char.isDigit && (!ip.isEmpty || !fp.isEmpty) then
      some ((decToNat ip : ℚ) + (decToNat fp : ℚ) / (10 : ℚ) ^ fp.length)
    else none

/-- Signed variant of `parseDecCore`, completing the model of `float(s)`. -/
def parseDec (s : String) : Option ℚ :=
  match s.data with
  | '-' :: cs => (parseDecCore cs).map Neg.neg
  | '+' :: cs => parseDecCore cs
  | cs => parseDecCore cs

/-- `safe_float(value, default)` (lines 47-54).  The result is `some r`
when the call returns `r` and `none` when it raises.  Branches follow the
source exactly: `value is None or pd.isna(value)` returns the default;
otherwise `float(value)` is tried and any exception there is caught.
For a list argument `pd.isna` is elementwise, so the `or` produces a
NumPy boolean array: with two or more elements its truth value is
ambiguous and the `if` raises `ValueError` outside the `try` block; a
singleton array is truthy/falsy elementwise and both paths end at the
default (either via `pd.isna` or via the caught `float(list)` error). -/
def safeFloat (v : PyVal) (d : ℚ) : Option ℚ :=
  match v with
  | .vNone => some d
  | .vNan => some d
  | .vFloat q => some q
  | .vInt n => some (n : ℚ)
  | .vBool b => some (if b then 1 else 0)
  | .vStr s => some ((parseDec s).getD d)
  | .vObj => some d
  | .vList l =>
    match l with
    | [] => some d
    | [_] => some d
    | _ => none

/-- The value `float(v)` would produce for a scalar `v`, when it
succeeds; the specification's notion of "coercible to a number". -/
def scalarCoerce : PyVal → Option ℚ
  | .vFloat q => some q
  | .vInt n => some (n : ℚ)
  | .vBool b => some (if b then 1 else 0)
  | .vStr s => parseDec s
  | _ => none

/-- Python `int(x)` on a finite float value: truncation toward zero. -/
def pyInt (q : ℚ) : ℤ :=
  if 0 ≤ q then ⌊q⌋ else ⌈q⌉

/-- Round to the nearest integer, ties to the even neighbour (the
tie-breaking rule of Python's `round`). -/
def rhalfeven (q : ℚ) : ℤ :=
  if q - ⌊q⌋ = 1 / 2 then (if ⌊q⌋ % 2 = 0 then ⌊q⌋ else ⌊q⌋ + 1) else round q

/-- Python `round(q, nd)` on an exact value. -/
def pyRound (nd : ℕ) (q : ℚ) : ℚ :=
  (rhalfeven (q * 10 ^ nd) : ℚ) / 10 ^ nd

/-- Python float division; `none` models `ZeroDivisionError`. -/
def pyDiv (a b : ℚ) : Option ℚ :=
  if b = 0 then none else some (a / b)

/-- A snapshot field value as read for the expense-ratio scan: missing
key, `NaN`, or a number. -/
inductive FieldVal where
  | absent : FieldVal
  | nan : FieldVal
  | num (q : ℚ) : FieldVal
deriving DecidableEq

/-- The test `value and not pd.isna(value) and value > 0` (line 69) on a
field value: a present, non-NaN, truthy, strictly positive number. -/
def usableField : FieldVal → Bool
  | .num q => decide (0 < q)
  | _ => false

/-- Numeric payload of a field value (only read after `usableField`). -/
def fieldNum : FieldVal → ℚ
  | .num q => q
  | _ => 0

/-- The static fallback table `known_expenses` (lines 73-90). -/
def knownExpenses : List (String × ℚ) :=
  [("SPY", 0.0945), ("QQQ", 0.20), ("IVV", 0.04), ("VOO", 0.03), ("VTI", 0.03),
   ("BND", 0.03), ("AGG", 0.03), ("GLD", 0.40), ("SLV", 0.50), ("IEFA", 0.07),
   ("EEM", 0.68), ("VWO", 0.08), ("TLT", 0.15), ("IWM", 0.19), ("XLK", 0.10),
   ("XLV", 0.10), ("XLE", 0.10), ("XLF", 0.10), ("XLI", 0.10), ("XLB", 0.10),
   ("XLP", 0.10), ("XLU", 0.10), ("XLY", 0.10), ("SMH", 0.35), ("SOXX", 0.35),
   ("IBB", 0.45), ("KBE", 0.35), ("KRE", 0.35), ("USO", 0.60), ("UNG", 0.60),
   ("HYG", 0.49), ("LQD", 0.14), ("SHY", 0.15), ("IEI", 0.15), ("TIP", 0.19),
   ("VNQ", 0.12), ("DBC", 0.85), ("GDX", 0.51), ("GDXJ", 0.51), ("EWJ", 0.49),
   ("MCHI", 0.59), ("FXI", 0.74), ("INDA", 0.64), ("EPI", 0.59), ("EWZ", 0.59),
   ("ARKK", 0.75), ("ARKW", 0.75), ("ARKG", 0.75), ("QCLN", 0.40), ("TAN", 0.65),
   ("ICLN", 0.46), ("PBW", 0.60), ("XBI", 0.35), ("LABU", 1.48), ("BLOK", 0.75),
   ("FINX", 0.68), ("LIT", 0.75), ("REMX", 0.65), ("URA", 0.70), ("KOL", 0.65),
   ("SCHD", 0.06), ("VYM", 0.06), ("VIG", 0.06), ("NOBL", 0.35), ("SPHD", 0.28),
   ("JEPI", 0.35), ("JEPQ", 0.35), ("DIVO", 0.50), ("SCHG", 0.04), ("VUG", 0.04),
   ("IVW", 0.18), ("IJR", 0.06), ("IJH", 0.05), ("IJS", 0.18), ("IJT", 0.18),
   ("AVUV", 0.25), ("AVDV", 0.36), ("AVEM", 0.33), ("AVDE", 0.27), ("AVUS", 0.15)]

/-- `get_expense_ratio(info, ticker)` (lines 56-92).  `vals` are the
values of the five scanned snapshot fields `annualReportExpenseRatio`,
`expenseRatio`, `annualExpenseRatio`, `prospectusNetExpenseRatio`,
`managementExpenseRatio`, in the source's scan order; the first usable
one wins (`safe_float` on a plain number is the identity), then the
static table, then the literal default `0.30`. -/
def resolveExpense (vals : List FieldVal) (ticker : String) : ℚ :=
  match vals.find? usableField with
  | some v => fieldNum v
  | none => (knownExpenses.lookup ticker).getD 0.30

/-- ASCII model of Python `str.lower()`. -/
def strLower (s : String) : String :=
  String.mk (s.data.map Char.toLower)

/-- Python `s[:n]`. -/
def strTake (n : ℕ) (s : String) : String :=
  String.mk (s.data.take n)

/-- Python `needle in hay` on strings, as substring containment over the
character lists. -/
def hasSub (needle : List Char) : List Char → Bool
  | [] => needle.isEmpty
  | c :: t => needle.isPrefixOf (c :: t) || hasSub needle t

/-- `any(kw in s for kw in kws)` (lines 143 and 145). -/
def hasAnyKw (kws : List String) (s : String) : Bool :=
  kws.any (fun kw => hasSub kw.data s.data)

/-- `bond_keywords` (line 140). -/
def bondKeywords : List String :=
  ["bond", "treasury", "aggregate", "fixed income", "corporate bond", "municipal"]

/-- `commodity_keywords` (line 141). -/
def commodityKeywords : List String :=
  ["gold", "silver", "oil", "commodity", "metals", "energy", "natural gas"]

/-- The fixed-income ticker keyword list of line 143. -/
def fiTickerKws : List String :=
  ["bnd", "agg", "tlt", "shy", "iei", "lqd", "hyg"]

/-- The commodity ticker keyword list of line 145. -/
def commodityTickerKws : List String :=
  ["gld", "slv", "uso", "ung", "dbc"]

/-- The asset-class assignment of lines 136-146: bond check first
(name keywords or ticker keywords, both by substring containment over
the lowercased strings), else commodity check, else the `Equity`
default. -/
def assetClassOf (name ticker : String) : String :=
  if hasAnyKw bondKeywords (strLower name) || hasAnyKw fiTickerKws (strLower ticker) then
    "Fixed Income"
  else if hasAnyKw commodityKeywords (strLower name) || hasAnyKw commodityTickerKws (strLower ticker) then
    "Commodity"
  else "Equity"

/-- One row of the one-year price history `hist` (a daily bar). -/
structure PriceBar where
  openP : ℚ
  high : ℚ
  low : ℚ
  close : ℚ
  vol : ℚ
deriving DecidableEq

/-- The `Close` column of the history. -/
def closesOf (bars : List PriceBar) : List ℚ :=
  bars.map PriceBar.close

/-- `hist['Close'].rolling(n).mean().iloc[-1]` guarded by
`len(hist) >= n` (lines 104-114): the mean of the trailing `n` closes,
absent when the series is shorter than `n`. -/
def smaOf (closes : List ℚ) (n : ℕ) : Option ℚ :=
  if closes.length < n then none
  else some ((closes.drop (closes.length - n)).sum / (n : ℚ))

/-- The `gain` series of line 162: the bar-to-bar close difference,
clipped below at 0, with the leading `NaN` of `diff()` replaced by 0 by
`where` (since `NaN > 0` is false). -/
def gainsOf (closes : List ℚ) : List ℚ :=
  0 :: List.zipWith (fun a b => if a < b then b - a else 0) closes closes.tail

/-- The `loss` series of line 163 (absolute value of the negative
differences, zero otherwise). -/
def lossesOf (closes : List ℚ) : List ℚ :=
  0 :: List.zipWith (fun a b => if b < a then a - b else 0) closes closes.tail

/-- `gain.rolling(window=14).mean().iloc[-1]`: mean of the trailing 14
entries. -/
def meanGainOf (closes : List ℚ) : ℚ :=
  ((gainsOf closes).drop ((gainsOf closes).length - 14)).sum / 14

/-- `loss.rolling(window=14).mean().iloc[-1]`. -/
def meanLossOf (closes : List ℚ) : ℚ :=
  ((lossesOf closes).drop ((lossesOf closes).length - 14)).sum / 14

/-- The RSI block of lines 157-169 under IEEE float semantics for the
division `rs = gain / loss`: with a zero loss mean and a positive gain
mean `rs` is `+inf`, so `100 - 100/(1 + rs)` is exactly `100.0` (finite,
not NaN, so the `pd.isna` guard does not restore the default); with both
means zero `rs` is NaN, `rsi_val` is NaN and the default 50 is kept;
otherwise the finite value is truncated by `int(...)`. -/
def rsiOf (closes : List ℚ) : ℤ :=
  if closes.length < 14 then 50
  else if meanLossOf closes = 0 then
    (if meanGainOf closes = 0 then 50 else 100)
  else pyInt (100 - 100 / (1 + meanGainOf closes / meanLossOf closes))

/-- The `lwowski` score of lines 171-175: the clamped product formula
when both `aum` and `volume` are truthy, the default 5000 otherwise. -/
def lwowskiOf (aum volume : ℚ) : ℤ :=
  if aum ≠ 0 ∧ volume ≠ 0 then
    max 1000 (min 99999 (pyInt (aum / 1000000 * (volume / 1000000) / 100)))
  else 5000

/-- The quote snapshot `info`: every field the builder reads, `none`
meaning the key is missing.  The five expense-ratio field values are
kept as a list in the scan order of `get_expense_ratio`. -/
structure Snapshot where
  regularMarketPrice : Option ℚ
  currentPrice : Option ℚ
  regularMarketVolume : Option ℚ
  fiftyTwoWeekHigh : Option ℚ
  totalAssets : Option ℚ
  marketCap : Option ℚ
  longName : Option String
  shortName : Option String
  regularMarketPreviousClose : Option ℚ
  expenseFieldVals : List FieldVal
deriving DecidableEq

/-- The price resolution of lines 117-119: `regularMarketPrice`, else
`currentPrice`, else the last close, else 0. -/
def priceOf (snap : Snapshot) (bars : List PriceBar) : ℚ :=
  match snap.regularMarketPrice with
  | some v => v
  | none =>
    match snap.currentPrice with
    | some v => v
    | none =>
      match (closesOf bars).getLast? with
      | some c => c
      | none => 0

/-- The 52-week-high resolution of lines 125-126: the snapshot field,
else `hist['High'].max()`, else the resolved price. -/
def week52HighOf (snap : Snapshot) (bars : List PriceBar) : ℚ :=
  match snap.fiftyTwoWeekHigh with
  | some v => v
  | none =>
    match bars.map PriceBar.high with
    | [] => priceOf snap bars
    | h :: t => t.foldl max h

/-- The AUM resolution of line 129: `totalAssets`, else `marketCap`,
else 0. -/
def aumOf (snap : Snapshot) : ℚ :=
  match snap.totalAssets with
  | some v => v
  | none =>
    match snap.marketCap with
    | some v => v
    | none => 0

/-- The display-name resolution of line 135: `longName`, else
`shortName`, else the ticker. -/
def nameOf (snap : Snapshot) (ticker : String) : String :=
  match snap.longName with
  | some s => s
  | none =>
    match snap.shortName with
    | some s => s
    | none => ticker

/-- Line 149: `(price / week52_high * 100) if week52_high and
week52_high > 0 else 100`, with the division kept fallible so that a
zero-divisor error would be visible (the guard makes it unreachable). -/
def near52wPctOf (price high : ℚ) : Option ℚ :=
  if high ≠ 0 ∧ 0 < high then (pyDiv price high).map (fun q => q * 100)
  else some 100

/-- `safe_bool(x and y and x > y)` (lines 153-154): Python `and` yields
the first falsy operand, so an absent or zero SMA short-circuits to a
falsy value and the flag is `false`. -/
def smaFlag : Option ℚ → Option ℚ → Bool
  | some a, some b => if a = 0 then false else if b = 0 then false else decide (b < a)
  | _, _ => false

/-- `safe_bool(sma200 and price > sma200)` (line 155). -/
def slopeFlag (s : Option ℚ) (price : ℚ) : Bool :=
  match s with
  | some q => if q = 0 then false else decide (q < price)
  | none => false

/-- The output record of lines 181-198: one entry per dictionary key,
in source order. -/
structure ETFRecord where
  ticker : String
  name : String
  asset : String
  lwowski : ℤ
  price : ℚ
  closeAbove52w : Bool
  sma50gt150 : Bool
  sma150gt200 : Bool
  sma200Slope : Bool
  aum : String
  rsi : ℤ
  near52wpct : ℚ
  week52High : ℚ
  prevClose : ℚ
  volume : ℚ
  expense : ℚ
deriving DecidableEq

/-- The keys of the result dictionary, in source order (lines 181-198). -/
def recordKeys : List String :=
  ["ticker", "name", "asset", "lwowski", "price", "closeAbove52w",
   "sma50gt150", "sma150gt200", "sma200Slope", "aum", "rsi",
   "near52wpct", "week52High", "prevClose", "volume", "expense"]

/-- A JSON-like scalar, for rendering a record as the key/value list the
endpoint serialises. -/
inductive JVal where
  | jStr (s : String) : JVal
  | jInt (n : ℤ) : JVal
  | jRat (q : ℚ) : JVal
  | jBool (b : Bool) : JVal
deriving DecidableEq

/-- The result dictionary built at lines 181-198, as a key/value list. -/
def recordFields (r : ETFRecord) : List (String × JVal) :=
  [("ticker", .jStr r.ticker), ("name", .jStr r.name), ("asset", .jStr r.asset),
   ("lwowski", .jInt r.lwowski), ("price", .jRat r.price),
   ("closeAbove52w", .jBool r.closeAbove52w), ("sma50gt150", .jBool r.sma50gt150),
   ("sma150gt200", .jBool r.sma150gt200), ("sma200Slope", .jBool r.sma200Slope),
   ("aum", .jStr r.aum), ("rsi", .jInt r.rsi), ("near52wpct", .jRat r.near52wpct),
   ("week52High", .jRat r.week52High), ("prevClose", .jRat r.prevClose),
   ("volume", .jRat r.volume), ("expense", .jRat r.expense)]

/-- `get_etf_data(ticker)` (lines 94-200) given the fetched snapshot and
history.  `none` models the per-ticker `except` path (line 202); in the
modelled fragment the only fallible step is the guarded division of
line 149.  All numeric snapshot fields arrive through `safe_float`,
whose scalar behaviour on a present number is the identity and on a
missing key is the stated default, which the fallback matches encode. -/
def buildRecord (ticker : String) (snap : Snapshot) (bars : List PriceBar) :
    Option ETFRecord :=
  let closes := closesOf bars
  let sma50 := smaOf closes 50
  let sma150 := smaOf closes 150
  let sma200 := smaOf closes 200
  let price := priceOf snap bars
  let volume := (snap.regularMarketVolume).getD 0
  let week52High := week52HighOf snap bars
  let aum := aumOf snap
  let expRatio := resolveExpense snap.expenseFieldVals ticker
  let name := nameOf snap ticker
  match near52wPctOf price week52High with
  | none => none
  | some near52 =>
    some
      { ticker := ticker
        name := strTake 60 name
        asset := assetClassOf name ticker
        lwowski := lwowskiOf aum volume
        price := pyRound 2 price
        closeAbove52w := decide (week52High * 0.98 ≤ price)
        sma50gt150 := smaFlag sma50 sma150
        sma150gt200 := smaFlag sma150 sma200
        sma200Slope := slopeFlag sma200 price
        aum := if aum ≠ 0 then toString (pyInt (aum / 1000000)) else "N/A"
        rsi := rsiOf closes
        near52wpct := pyRound 1 near52
        week52High := pyRound 2 week52High
        prevClose := pyRound 2 ((snap.regularMarketPreviousClose).getD (price * 0.99))
        volume := pyRound 1 (volume / 1000000)
        expense := pyRound 2 (expRatio * 100) }

/-- The ticker universe `ETF_TICKERS` (lines 12-21). -/
def etfTickers : List String :=
  ["SPY", "QQQ", "IVV", "VOO", "VTI", "BND", "AGG", "GLD", "SLV", "IEFA",
   "EEM", "VWO", "TLT", "IWM", "XLK", "XLV", "XLE", "XLF", "XLI", "XLB",
   "XLP", "XLU", "XLY", "SMH", "SOXX", "IBB", "KBE", "KRE", "USO", "UNG",
   "HYG", "LQD", "SHY", "IEI", "TIP", "VNQ", "DBC", "GDX", "GDXJ", "EWJ",
   "MCHI", "FXI", "INDA", "EPI", "EWZ", "ARKK", "ARKW", "ARKG", "QCLN", "TAN",
   "ICLN", "PBW", "XBI", "LABU", "BLOK", "FINX", "LIT", "REMX", "URA", "KOL",
   "SCHD", "VYM", "VIG", "NOBL", "SPHD", "JEPI", "JEPQ", "DIVO", "SCHG", "VUG",
   "IVW", "IJR", "IJH", "IJS", "IJT", "AVUV", "AVDV", "AVEM", "AVDE", "AVUS"]

/-- One iteration of the loop of lines 214-224: a successful fetch
appends the record to `results`, any failure appends the ticker to
`errors`. -/
def batchStep (fetch : String → Option ETFRecord)
    (acc : List ETFRecord × List String) (t : String) :
    List ETFRecord × List String :=
  match fetch t with
  | some d => (acc.1 ++ [d], acc.2)
  | none => (acc.1, acc.2 ++ [t])

/-- The whole loop of `get_etfs` over a universe, starting from empty
`results` and `errors`.  `fetch` abstracts the external data retrieval
composed with `get_etf_data`; both a fetch exception and a builder
failure surface as `none` (lines 202-204 and 216-224). -/
def runBatch (fetch : String → Option ETFRecord) (univ : List String) :
    List ETFRecord × List String :=
  univ.foldl (batchStep fetch) ([], [])

/-- The successful response shape of lines 230-234. -/
structure BatchResult where
  status : String
  count : ℕ
  data : List ETFRecord
deriving DecidableEq

/-- `get_etfs` (lines 206-234) on its success path: the per-ticker loop
followed by the `success` response.  (The outer `except` of lines
236-243 concerns structural failures of the loop itself, which the
embedded loop cannot produce.) -/
def getEtfs (fetch : String → Option ETFRecord) (univ : List String) :
    BatchResult :=
  { status := "success"
    count := (runBatch fetch univ).1.length
    data := (runBatch fetch univ).1 }

/-- A snapshot with every field missing. -/
def emptySnap : Snapshot :=
  { regularMarketPrice := none
    currentPrice := none
    regularMarketVolume := none
    fiftyTwoWeekHigh := none
    totalAssets := none
    marketCap := none
    longName := none
    shortName := none
    regularMarketPreviousClose := none
    expenseFieldVals := [.absent, .absent, .absent, .absent, .absent] }

/-! ### Helper lemmas -/

/-- `hasSub` decides substring containment. -/
theorem hasSub_iff (needle hay : List Char) :
    hasSub needle hay = true ↔ needle <:+: hay := by
  induction hay with
  | nil => simp [hasSub, List.isEmpty_iff]
  | cons c t ih =>
    rw [hasSub, Bool.or_eq_true, List.isPrefixOf_iff_prefix, ih, List.infix_cons_iff]

/-- `rhalfeven` is the identity on integers. -/
theorem rhalfeven_intCast (n : ℤ) : rhalfeven ((n : ℤ) : ℚ) = n := by
  rw [rhalfeven, Int.floor_intCast]
  norm_num

/-- Unrolling the batch loop from an arbitrary accumulator. -/
theorem batch_foldl_spec (fetch : String → Option ETFRecord) (univ : List String) :
    ∀ acc : List ETFRecord × List String,
      univ.foldl (batchStep fetch) acc =
        (acc.1 ++ univ.filterMap fetch,
         acc.2 ++ univ.filter (fun t => (fetch t).isNone)) := by
  induction univ with
  | nil => intro acc; simp
  | cons t ts ih =>
    intro acc
    rw [List.foldl_cons, ih]
    cases hf : fetch t with
    | some d => simp [batchStep, hf, List.filterMap_cons, List.filter_cons]
    | none => simp [batchStep, hf, List.filterMap_cons, List.filter_cons]

/-- The loop collects exactly the successes (in order) and the failed
tickers (in order). -/
theorem runBatch_eq (fetch : String → Option ETFRecord) (univ : List String) :
    runBatch fetch univ =
      (univ.filterMap fetch, univ.filter (fun t => (fetch t).isNone)) := by
  rw [runBatch, batch_foldl_spec]
  simp

/-- Successes and failures partition the universe by cardinality. -/
theorem filterMap_filter_length (fetch : String → Option ETFRecord) (univ : List String) :
    (univ.filterMap fetch).length +
      (univ.filter (fun t => (fetch t).isNone)).length = univ.length := by
  induction univ with
  | nil => rfl
  | cons t ts ih =>
    cases hf : fetch t <;>
      simp [List.filterMap_cons, List.filter_cons, hf] <;> omega

/-! ### Claim theorems -/

/-- Claim C6, counterexample: `safe_float` applied to a two-element list
raises (`pd.isna` of the list is an elementwise boolean array, and the
`if value is None or pd.isna(value)` test on it raises `ValueError`
outside the `try` block), so "never raises" fails as stated. -/
theorem c6_list_truthiness_cx :
    safeFloat (PyVal.vList [PyVal.vFloat 1, PyVal.vFloat 2]) 0 = none := rfl

/-- Claim C6 (amended): for every scalar (non-sequence) input `v` and
default `d`, `safe_float` never raises; it returns `d` when `v` is
`None`, `NaN`, or not coercible to a number, and otherwise the coerced
float value. -/
theorem c6_safe_float_scalar_spec (v : PyVal) (d : ℚ)
    (h : ∀ l, v ≠ PyVal.vList l) :
    safeFloat v d = some ((scalarCoerce v).getD d) := by
  cases v with
  | vList l => exact absurd rfl (h l)
  | vNone => rfl
  | vNan => rfl
  | vFloat q => rfl
  | vInt n => rfl
  | vBool b => rfl
  | vStr s => rfl
  | vObj => rfl

/-- Claim C6, witness: a non-numeric string is not coercible and yields
the default without raising. -/
theorem c6_safe_float_witness :
    safeFloat (PyVal.vStr "x2") 7 = some ((scalarCoerce (PyVal.vStr "x2")).getD 7) ∧
    (scalarCoerce (PyVal.vStr "x2")).getD 7 = 7 :=
  ⟨c6_safe_float_scalar_spec (PyVal.vStr "x2") 7 (fun _ h => nomatch h), rfl⟩

/-- Claim C7: the SMA is absent (not zero) when the series has fewer
than `n` bars, and otherwise equals the arithmetic mean of the closing
prices over the trailing `n`-bar window ending at the most recent bar. -/
theorem c7_sma_absent_or_trailing_mean (closes : List ℚ) (n : ℕ) :
    (closes.length < n → smaOf closes n = none) ∧
    (n ≤ closes.length →
      smaOf closes n = some ((closes.reverse.take n).sum / (n : ℚ))) := by
  constructor
  · intro h
    simp [smaOf, h]
  · intro h
    rw [smaOf, if_neg (not_lt.mpr h)]
    have hlen : ((closes.drop (closes.length - n)).reverse).length = n := by
      simp [Nat.sub_sub_self h]
    have hrev : closes.reverse.take n = (closes.drop (closes.length - n)).reverse := by
      conv_lhs =>
        rw [← List.take_append_drop (closes.length - n) closes, List.reverse_append]
      exact List.take_left' hlen
    rw [hrev, List.sum_reverse]

/-- Claim C7, witness: a 3-bar series has no SMA(5), and its SMA(2) is
the mean of the last two closes. -/
theorem c7_sma_witness :
    smaOf [(1 : ℚ), 2, 3] 5 = none ∧
    smaOf [(1 : ℚ), 2, 3] 2 = some ((([(1 : ℚ), 2, 3].reverse.take 2).sum) / (2 : ℚ)) :=
  ⟨(c7_sma_absent_or_trailing_mean [(1 : ℚ), 2, 3] 5).1 (by decide),
   (c7_sma_absent_or_trailing_mean [(1 : ℚ), 2, 3] 2).2 (by decide)⟩

/-- Claim C3, counterexample: the source tests the ticker keywords with
substring containment (`kw in ticker_lower`), not exact equality.  The
ticker `AGGY` (lowercased `aggy`) equals none of the seven fixed-income
symbols and its name holds no bond keyword, yet it is classified
`Fixed Income` because `agg` occurs inside `aggy`. -/
theorem c3_exact_match_cx :
    assetClassOf "foo fund" "AGGY" = "Fixed Income" ∧
    (¬ ∃ kw ∈ bondKeywords, kw.data <:+: (strLower "foo fund").data) ∧
    strLower "AGGY" ∉ fiTickerKws := by
  decide

/-- Claim C3 (amended): the classifier assigns `Fixed Income` if and
only if the lowercased name contains one of the six bond keywords as a
substring OR the lowercased ticker contains one of the seven
fixed-income symbols as a substring (not exact equality); this check
takes precedence over the commodity check. -/
theorem c3_fixed_income_iff (name ticker : String) :
    assetClassOf name ticker = "Fixed Income" ↔
      ((∃ kw ∈ bondKeywords, kw.data <:+: (strLower name).data) ∨
       (∃ kw ∈ fiTickerKws, kw.data <:+: (strLower ticker).data)) := by
  have hb : (hasAnyKw bondKeywords (strLower name) ||
      hasAnyKw fiTickerKws (strLower ticker)) = true ↔
      ((∃ kw ∈ bondKeywords, kw.data <:+: (strLower name).data) ∨
       (∃ kw ∈ fiTickerKws, kw.data <:+: (strLower ticker).data)) := by
    simp [hasAnyKw, List.any_eq_true, hasSub_iff]
  rw [assetClassOf]
  by_cases h : (hasAnyKw bondKeywords (strLower name) ||
      hasAnyKw fiTickerKws (strLower ticker)) = true
  · rw [if_pos h]
    exact ⟨fun _ => hb.mp h, fun _ => rfl⟩
  · rw [if_neg h]
    constructor
    · intro heq
      exfalso
      split at heq
      · exact absurd heq (by decide)
      · exact absurd heq (by decide)
    · intro hr
      exact absurd (hb.mpr hr) h

/-- Claim C4: for every fetch outcome and universe, the batch result has
status `success`, its data is exactly the records of the non-failing
tickers in universe order, and `count` is the length of the data; in
particular a 3-ticker universe whose middle ticker fails yields the
first and third records, in order, with count 2. -/
theorem c4_batch_isolation :
    (∀ (fetch : String → Option ETFRecord) (univ : List String),
      getEtfs fetch univ =
        { status := "success", count := (univ.filterMap fetch).length,
          data := univ.filterMap fetch }) ∧
    (∀ rA rC : ETFRecord,
      getEtfs (fun t => if t = "A" then some rA else if t = "C" then some rC else none)
          ["A", "B", "C"] =
        { status := "success", count := 2, data := [rA, rC] }) := by
  have hmain : ∀ (fetch : String → Option ETFRecord) (univ : List String),
      getEtfs fetch univ =
        { status := "success", count := (univ.filterMap fetch).length,
          data := univ.filterMap fetch } := by
    intro fetch univ
    rw [getEtfs, runBatch_eq]
  refine ⟨hmain, fun rA rC => ?_⟩
  rw [hmain]
  simp [List.filterMap_cons]

/-- Claim C5: every ticker of the universe lands in exactly one of the
success list and the failure list (the lengths sum to the universe
length, and a ticker has a record if and only if it is not a failure);
and every success entry is a complete record carrying all sixteen output
keys — a failed ticker never contributes a partial or null record. -/
theorem c5_partition_complete_records (fetch : String → Option ETFRecord)
    (univ : List String) :
    (runBatch fetch univ).1.length + (runBatch fetch univ).2.length = univ.length ∧
    (runBatch fetch univ).1 = univ.filterMap fetch ∧
    (runBatch fetch univ).2 = univ.filter (fun t => (fetch t).isNone) ∧
    (∀ t ∈ univ, (fetch t).isSome ↔ t ∉ (runBatch fetch univ).2) ∧
    (∀ r ∈ (runBatch fetch univ).1, (recordFields r).map Prod.fst = recordKeys) ∧
    recordKeys.length = 16 := by
  rw [runBatch_eq]
  refine ⟨filterMap_filter_length fetch univ, rfl, rfl, ?_, ?_, rfl⟩
  · intro t ht
    simp only [List.mem_filter, ht, true_and]
    cases hf : fetch t <;> simp [hf]
  · intro r _
    rfl

/-- A concrete complete record, for witnessing the batch claims. -/
def sampleRec : ETFRecord :=
  { ticker := "T", name := "N", asset := "Equity", lwowski := 5000, price := 1,
    closeAbove52w := true, sma50gt150 := false, sma150gt200 := false,
    sma200Slope := false, aum := "N/A", rsi := 50, near52wpct := 100,
    week52High := 1, prevClose := 1, volume := 0, expense := 30 }

/-- Claim C5, witness: a 2-ticker universe whose second ticker fails has
one success and one failure, and the success is a complete 16-field
record. -/
theorem c5_partition_witness :
    (runBatch (fun t => if t = "A" then some sampleRec else none) ["A", "B"]).1.length +
      (runBatch (fun t => if t = "A" then some sampleRec else none) ["A", "B"]).2.length = 2 ∧
    (recordFields sampleRec).map Prod.fst = recordKeys := by
  have h := c5_partition_complete_records
    (fun t => if t = "A" then some sampleRec else none) ["A", "B"]
  refine ⟨h.1, ?_⟩
  apply h.2.2.2.2.1 sampleRec
  rw [h.2.1]
  simp [List.filterMap_cons]

/-- A 15-bar strictly rising close series: all gains, no losses in the
trailing 14-bar window. -/
def c2AllGains : List ℚ :=
  [1, 2, 3, 4, 5, 6, 7, 8, 9, 10, 11, 12, 13, 14, 15]

/-- The all-gains series has a zero trailing-14 mean loss. -/
theorem c2AllGains_meanLoss : meanLossOf c2AllGains = 0 := by
  norm_num [meanLossOf, lossesOf, c2AllGains]

/-- The all-gains series has a positive trailing-14 mean gain. -/
theorem c2AllGains_meanGain : 0 < meanGainOf c2AllGains := by
  norm_num [meanGainOf, gainsOf, c2AllGains]

/-- Claim C2, counterexample: on an all-gains 15-bar series the division
`gain / loss` is `+inf`, `100 - 100/(1 + inf)` is exactly `100.0` (not
NaN, so the `pd.isna` guard does not fire) and the record's `rsi` is
100 — not the claimed default 50. -/
theorem c2_all_gains_cx :
    meanLossOf c2AllGains = 0 ∧ 0 < meanGainOf c2AllGains ∧
    rsiOf c2AllGains = 100 ∧ rsiOf c2AllGains ≠ 50 := by
  have h14 : ¬ c2AllGains.length < 14 := by norm_num [c2AllGains]
  have h100 : rsiOf c2AllGains = 100 := by
    rw [rsiOf, if_neg h14, if_pos c2AllGains_meanLoss,
      if_neg (ne_of_gt c2AllGains_meanGain)]
  exact ⟨c2AllGains_meanLoss, c2AllGains_meanGain, h100, by rw [h100]; decide⟩

/-- Claim C2 (amended): for every price series with at least 14 bars
whose trailing-14 mean loss is zero while the trailing-14 mean gain is
positive, the `rsi` field equals 100 (the infinite relative strength
propagates to a finite `100.0`), not the default 50. -/
theorem c2_zero_loss_rsi_100 (closes : List ℚ) (h14 : 14 ≤ closes.length)
    (hl : meanLossOf closes = 0) (hg : 0 < meanGainOf closes) :
    rsiOf closes = 100 := by
  rw [rsiOf, if_neg (not_lt.mpr h14), if_pos hl, if_neg (ne_of_gt hg)]

/-- Claim C2, witness: the amended theorem applied to the concrete
all-gains series. -/
theorem c2_zero_loss_witness :
    14 ≤ c2AllGains.length ∧ rsiOf c2AllGains = 100 :=
  ⟨by norm_num [c2AllGains],
   c2_zero_loss_rsi_100 c2AllGains (by norm_num [c2AllGains])
     c2AllGains_meanLoss c2AllGains_meanGain⟩

/-- Claim C8: the liquidity score is always an integer in
[1000, 99999]; it is 5000 exactly when AUM or volume is 0 (the
`safe_float` image of an absent field), and otherwise equals
⌊(AUM/1000000) · (volume/1000000) / 100⌋ clamped to [1000, 99999]
(the source truncates with `int(...)`, which agrees with the floor after
clamping, since any negative product clamps to 1000 either way). -/
theorem c8_lwowski_spec (aum volume : ℚ) :
    (1000 ≤ lwowskiOf aum volume ∧ lwowskiOf aum volume ≤ 99999) ∧
    ((aum = 0 ∨ volume = 0) → lwowskiOf aum volume = 5000) ∧
    (aum ≠ 0 → volume ≠ 0 →
      lwowskiOf aum volume =
        max 1000 (min 99999 ⌊aum / 1000000 * (volume / 1000000) / 100⌋)) := by
  rw [lwowskiOf]
  by_cases h : aum ≠ 0 ∧ volume ≠ 0
  · rw [if_pos h]
    refine ⟨⟨le_max_left _ _, max_le (by norm_num) ((min_le_left _ _).trans (by norm_num))⟩,
      ?_, ?_⟩
    · rintro (hz | hz)
      · exact absurd hz h.1
      · exact absurd hz h.2
    · intro _ _
      rw [pyInt]
      by_cases hq : 0 ≤ aum / 1000000 * (volume / 1000000) / 100
      · rw [if_pos hq]
      · rw [if_neg hq]
        push_neg at hq
        have hc : ⌈aum / 1000000 * (volume / 1000000) / 100⌉ ≤ 0 :=
          Int.ceil_le.mpr (by exact_mod_cast hq.le)
        have hf : ⌊aum / 1000000 * (volume / 1000000) / 100⌋ ≤ 0 :=
          Int.floor_nonpos hq.le
        rw [min_eq_right (hc.trans (by norm_num)), min_eq_right (hf.trans (by norm_num)),
          max_eq_left (hc.trans (by norm_num)), max_eq_left (hf.trans (by norm_num))]
  · rw [if_neg h]
    refine ⟨⟨by norm_num, by norm_num⟩, fun _ => rfl, fun ha hv => absurd ⟨ha, hv⟩ h⟩

/-- Claim C8, witness: a zero AUM gives the default 5000, and concrete
nonzero inputs give the clamped formula value. -/
theorem c8_lwowski_witness :
    lwowskiOf 0 7 = 5000 ∧ lwowskiOf 1000000000 200000000 = 2000 := by
  constructor
  · exact (c8_lwowski_spec 0 7).2.1 (Or.inl rfl)
  · rw [(c8_lwowski_spec 1000000000 200000000).2.2 (by norm_num) (by norm_num)]
    rw [show ((1000000000 : ℚ) / 1000000 * ((200000000 : ℚ) / 1000000) / 100) =
      ((2000 : ℤ) : ℚ) by norm_num, Int.floor_intCast]
    norm_num

/-- A 150-bar close series whose trailing 50 closes average 1 while the
trailing 150 closes average 0. -/
def c9Series : List ℚ :=
  List.replicate 100 (-1 / 2 : ℚ) ++ List.replicate 50 1

/-- Claim C9, counterexample: a derived SMA pair with `sma50 = 1` and
`sma150 = 0`, both present, with `sma50 > sma150`; yet the flag is
`false`, because Python's `and` chain treats the falsy value `0.0` like
an absent operand.  So "when both operands are present the flag equals
the strict comparison" fails as stated. -/
theorem c9_falsy_zero_cx :
    smaOf c9Series 50 = some 1 ∧ smaOf c9Series 150 = some 0 ∧
    smaFlag (smaOf c9Series 50) (smaOf c9Series 150) = false ∧ ((0 : ℚ) < 1) := by
  have hlen : c9Series.length = 150 := by simp [c9Series]
  have hdrop : c9Series.drop 100 = List.replicate 50 (1 : ℚ) := by
    rw [c9Series]
    exact List.drop_left' (by simp)
  have h50 : smaOf c9Series 50 = some 1 := by
    rw [smaOf, hlen, if_neg (by norm_num)]
    norm_num [hdrop, List.sum_replicate]
  have h150 : smaOf c9Series 150 = some 0 := by
    rw [smaOf, hlen, if_neg (by norm_num)]
    norm_num [c9Series, List.sum_replicate]
  refine ⟨h50, h150, ?_, by norm_num⟩
  rw [h50, h150]
  norm_num [smaFlag]

/-- Claim C9 (amended): the flag `sma50gt150` (and analogously
`sma150gt200`, which the builder computes with the same function) is
true if and only if both operands are present with nonzero values and
the first strictly exceeds the second; an absent operand — or a zero
one, which Python truthiness conflates with absent — yields `false`,
never an error. -/
theorem c9_sma_flag_iff (a b : Option ℚ) :
    smaFlag a b = true ↔
      ∃ x y, a = some x ∧ b = some y ∧ x ≠ 0 ∧ y ≠ 0 ∧ y < x := by
  cases a with
  | none => simp [smaFlag]
  | some x =>
    cases b with
    | none => simp [smaFlag]
    | some y =>
      rw [smaFlag]
      split_ifs with h1 h2 <;> simp_all

/-- Claim C1, evaluation at the failing input: with no usable expense
field and a ticker outside the static table, the resolver returns the
literal `0.30`, and the record's output formatting (`round(x * 100, 2)`,
line 197) turns it into `30.0` — not the `0.30` the claim (and the
source's own comment, "default 0.30%") requires. -/
theorem c1_default_expense_prints_30 :
    resolveExpense [FieldVal.absent, FieldVal.absent, FieldVal.absent,
      FieldVal.absent, FieldVal.absent] "ZZZ" = 0.30 ∧
    (buildRecord "ZZZ" emptySnap []).map ETFRecord.expense =
      some (pyRound 2 (0.30 * 100)) ∧
    pyRound 2 ((0.30 : ℚ) * 100) = 30 ∧ ((30 : ℚ) ≠ 0.30) := by
  refine ⟨rfl, rfl, ?_, by norm_num⟩
  rw [pyRound, show (0.30 : ℚ) * 100 * 10 ^ 2 = ((3000 : ℤ) : ℚ) by norm_num,
    rhalfeven_intCast]
  norm_num

/-- Claim C10: whenever the resolved 52-week high is 0 and the resolved
price is nonnegative, the record builder still succeeds (the guarded
expression of line 149 never divides), `closeAbove52w` is true (price ≥
0.98 · 0) and `near52wpct` is exactly 100. -/
theorem c10_zero_high_record (ticker : String) (snap : Snapshot) (bars : List PriceBar)
    (hw : week52HighOf snap bars = 0) (hp : 0 ≤ priceOf snap bars) :
    ∃ r, buildRecord ticker snap bars = some r ∧
      r.closeAbove52w = true ∧ r.near52wpct = 100 := by
  simp only [buildRecord, hw]
  have h100 : near52wPctOf (priceOf snap bars) 0 = some 100 := by
    rw [near52wPctOf, if_neg (by norm_num)]
  rw [h100]
  refine ⟨_, rfl, ?_, ?_⟩
  · rw [zero_mul]
    exact decide_eq_true hp
  · show pyRound 1 100 = 100
    rw [pyRound, show (100 : ℚ) * 10 ^ 1 = ((1000 : ℤ) : ℚ) by norm_num,
      rhalfeven_intCast]
    norm_num

/-- Claim C10, witness: the all-absent snapshot with an empty history
resolves both price and 52-week high to 0, and the built record has
`closeAbove52w = true` and `near52wpct = 100`. -/
theorem c10_zero_high_witness :
    week52HighOf emptySnap [] = 0 ∧ (0 : ℚ) ≤ priceOf emptySnap [] ∧
    ∃ r, buildRecord "NEW" emptySnap [] = some r ∧
      r.closeAbove52w = true ∧ r.near52wpct = 100 :=
  ⟨rfl, le_refl 0, c10_zero_high_record "NEW" emptySnap [] rfl (le_refl 0)⟩
